import Mathlib

/-!
Shallow embedding of `cflib/crazyflie/mem/deck_memory.py` (classes `DeckMemory`
and `DeckMemoryManager`).

Modelling conventions:
- Byte buffers are `List Nat` (each element a byte value 0..255); buffers of the
  fixed info-section size (129 bytes) are the domain of the decoder, matching
  the Python code whose `struct.unpack` calls assume exact slice sizes.
- Python callbacks are opaque: they are modelled as identifier tokens
  (`Option Nat`, `none` = Python `None`). Invoking a callback is an emitted
  `Effect`, as are calls into the external transport (`mem_handler.read`/
  `mem_handler.write`) and logging.
- Every stateful operation returns `(new state, emitted effects, optional
  Python exception)`. A raised exception leaves the state exactly as the
  Python code left it at the raise point.
- `name.decode()` is modelled at the byte level: the decoded name is the list
  of bytes up to (not including) the first NUL byte.
-/

namespace CfDeckMemory

/-- Little-endian unsigned 32-bit integer read at `off`, as `struct.unpack('<L', ...)`
on an in-range slice. -/
def u32le (data : List Nat) (off : Nat) : Nat :=
  data.getD off 0 + 256 * data.getD (off + 1) 0 +
    65536 * data.getD (off + 2) 0 + 16777216 * data.getD (off + 3) 0

def MASK_IS_VALID : Nat := 1
def MASK_IS_STARTED : Nat := 2
def MASK_SUPPORTS_READ : Nat := 4
def MASK_SUPPORTS_WRITE : Nat := 8
def MASK_SUPPORTS_UPGRADE : Nat := 16
def MASK_UPGRADE_REQUIRED : Nat := 32
def MASK_BOOTLOADER_ACTIVE : Nat := 64

/-- State of one `DeckMemory` object (class `DeckMemory` in the source).
Fields initialised as in `DeckMemory.__init__` (`None`s and `_bit_field = 0`). -/
structure DeckMemory where
  required_hash : Option Nat := none
  required_length : Option Nat := none
  name : Option (List Nat) := none
  base_address : Option Nat := none
  bit_field : Nat := 0
deriving DecidableEq, Repr

def DeckMemory.is_valid (d : DeckMemory) : Bool :=
  (d.bit_field &&& MASK_IS_VALID) != 0

def DeckMemory.is_started (d : DeckMemory) : Bool :=
  (d.bit_field &&& MASK_IS_STARTED) != 0

def DeckMemory.supports_read (d : DeckMemory) : Bool :=
  (d.bit_field &&& MASK_SUPPORTS_READ) != 0

def DeckMemory.supports_write (d : DeckMemory) : Bool :=
  (d.bit_field &&& MASK_SUPPORTS_WRITE) != 0

def DeckMemory.supports_fw_upgrade (d : DeckMemory) : Bool :=
  (d.bit_field &&& MASK_SUPPORTS_UPGRADE) != 0

def DeckMemory.is_fw_upgrade_required (d : DeckMemory) : Bool :=
  (d.bit_field &&& MASK_UPGRADE_REQUIRED) != 0

def DeckMemory.is_bootloader_active (d : DeckMemory) : Bool :=
  (d.bit_field &&& MASK_BOOTLOADER_ACTIVE) != 0

/-- `DeckMemory._parse`: `data` is one 32-byte slot. Reads the bit field from
byte 0; when the valid bit is set, unpacks `<LLL19s>` from bytes 1..31 and
truncates the 19-byte name field at the first NUL (`_name.split(b'\x00')[0]`). -/
def DeckMemory.parseSlot (data : List Nat) : DeckMemory :=
  let d : DeckMemory := { bit_field := data.getD 0 0 }
  if d.is_valid then
    { d with
      required_hash := some (u32le data 1),
      required_length := some (u32le data 5),
      base_address := some (u32le data 9),
      name := some (((data.drop 13).take 19).takeWhile (fun b => b != 0)) }
  else d

def MAX_NR_OF_DECKS : Nat := 4
def SIZE_OF_DECK_MEM_INFO : Nat := 0x20
def SIZE_OF_VERSION : Nat := 1
def SIZE_OF_INFO_SECTION : Nat := SIZE_OF_VERSION + MAX_NR_OF_DECKS * SIZE_OF_DECK_MEM_INFO
def INFO_SECTION_ADDRESS : Nat := 0
def SUPPORTED_VERSION : Nat := 1

/-- Python exception outcomes of an operation. `typeError` stands for the
`TypeError` the interpreter raises when `None` is called as a function or when
a `str` is concatenated with an `int`. -/
inductive PyError where
  | typeError
  | exception (msg : String)
deriving DecidableEq, Repr

/-- Observable effects emitted by an operation, in order: calls to the external
transport (`mem_handler`), invocations of caller-supplied callbacks, and log
records. -/
inductive Effect where
  | memRead (addr len : Nat)
  | memWrite (addr : Nat) (data : List Nat) (flush : Bool)
  | callbackData (cb : Nat) (relAddr : Int) (data : List Nat)
  | callbackAddr (cb : Nat) (relAddr : Int)
  | callbackMap (cb : Nat) (decks : List (Nat × DeckMemory))
  | logError (msg : String)
  | logDebug (msg : String)
deriving DecidableEq, Repr

/-- `Effect.isCallbackInvocation e = true` exactly when `e` invokes a
caller-supplied callback. -/
def Effect.isCallbackInvocation : Effect → Bool
  | .callbackData _ _ _ => true
  | .callbackAddr _ _ => true
  | .callbackMap _ _ => true
  | _ => false

/-- State of a `DeckMemoryManager` (fields of `DeckMemoryManager.__init__`);
`deck_memories` is the index → `DeckMemory` mapping as an association list. -/
structure DeckMemoryManager where
  id : Nat := 0
  query_complete_cb : Option Nat := none
  deck_memories : List (Nat × DeckMemory) := []
  read_complete_cb : Option Nat := none
  read_failed_cb : Option Nat := none
  read_base_address : Nat := 0
  write_complete_cb : Option Nat := none
  write_failed_cb : Option Nat := none
  write_base_address : Nat := 0
deriving DecidableEq, Repr

/-- Result of one operation: new state, emitted effects, optional exception. -/
abbrev StepResult := DeckMemoryManager × List Effect × Option PyError

/-- Byte offset of deck slot `i` inside the info section. -/
def slotOffset (i : Nat) : Nat := SIZE_OF_VERSION + SIZE_OF_DECK_MEM_INFO * i

/-- Body of the slot loop in `DeckMemoryManager._parse_info_section`: parse
slot `i` of `data` and keep it only if its valid bit is set. -/
def parseSlotEntry (data : List Nat) (i : Nat) : Option (Nat × DeckMemory) :=
  let d := DeckMemory.parseSlot ((data.drop (slotOffset i)).take SIZE_OF_DECK_MEM_INFO)
  if d.is_valid then some (i, d) else none

/-- The slot loop of `_parse_info_section`: slots 0..MAX_NR_OF_DECKS-1 in
order, keeping only valid ones. -/
def parseSlots (data : List Nat) : List (Nat × DeckMemory) :=
  (List.range MAX_NR_OF_DECKS).filterMap (parseSlotEntry data)

/-- `DeckMemoryManager._parse_info_section`. When the version byte differs from
`SUPPORTED_VERSION` the Python code evaluates `'Version ' + version` with
`version` an `int`, which raises `TypeError` before anything is logged or
returned. -/
def parseInfoSection (data : List Nat) : Except PyError (List (Nat × DeckMemory)) :=
  if data.getD 0 0 = SUPPORTED_VERSION then .ok (parseSlots data)
  else .error .typeError

/-- `DeckMemoryManager.query_decks`. -/
def DeckMemoryManager.query_decks (s : DeckMemoryManager) (cb : Option Nat) : StepResult :=
  if s.query_complete_cb.isSome then
    (s, [], some (.exception "Query ongoing"))
  else
    ({ s with deck_memories := [], query_complete_cb := cb },
     [.memRead INFO_SECTION_ADDRESS SIZE_OF_INFO_SECTION], none)

/-- `DeckMemoryManager._read` (the read lane). -/
def DeckMemoryManager.readOp (s : DeckMemoryManager) (base_address address length : Nat)
    (read_complete_cb read_failed_cb : Option Nat) : StepResult :=
  if s.read_complete_cb.isSome then
    (s, [], some (.exception "Read operation ongoing"))
  else
    ({ s with
       read_base_address := base_address,
       read_complete_cb := read_complete_cb,
       read_failed_cb := read_failed_cb },
     [.memRead (address + base_address) length], none)

/-- `DeckMemoryManager._write` (the write lane); the transport write is flagged
`flush_queue=True`. -/
def DeckMemoryManager.writeOp (s : DeckMemoryManager) (base_address address : Nat)
    (data : List Nat) (write_complete_cb write_failed_cb : Option Nat) : StepResult :=
  if s.write_complete_cb.isSome then
    (s, [], some (.exception "Write operation ongoing"))
  else
    ({ s with
       write_base_address := base_address,
       write_complete_cb := write_complete_cb,
       write_failed_cb := write_failed_cb },
     [.memWrite (address + base_address) data true], none)

/-- `DeckMemoryManager._new_data`: transport delivery of read data. A delivery
at `INFO_SECTION_ADDRESS` is routed to the query lane, anything else to the
read lane. Calling a `None` callback raises `TypeError` (after the lane was
already cleared, as in the Python code). -/
def DeckMemoryManager.new_data (s : DeckMemoryManager) (memId addr : Nat)
    (data : List Nat) : StepResult :=
  if memId = s.id then
    if addr = INFO_SECTION_ADDRESS then
      match parseInfoSection data with
      | .error e => (s, [], some e)
      | .ok m =>
        let s1 := { s with deck_memories := m }
        match s1.query_complete_cb with
        | none => ({ s1 with query_complete_cb := none }, [], some .typeError)
        | some cb => ({ s1 with query_complete_cb := none }, [.callbackMap cb m], none)
    else
      match s.read_complete_cb with
      | none =>
        ({ s with read_complete_cb := none, read_failed_cb := none }, [], some .typeError)
      | some cb =>
        ({ s with read_complete_cb := none, read_failed_cb := none },
         [.callbackData cb ((addr : Int) - (s.read_base_address : Int)) data], none)
  else (s, [], none)

/-- `DeckMemoryManager._new_data_failed`: transport read failure. The read lane
tolerates a missing failure callback and logs instead. -/
def DeckMemoryManager.new_data_failed (s : DeckMemoryManager) (memId addr : Nat) : StepResult :=
  if memId = s.id then
    if addr = INFO_SECTION_ADDRESS then
      ({ s with query_complete_cb := none }, [.logError "Deck memory query failed"], none)
    else
      match s.read_failed_cb with
      | some cb =>
        ({ s with read_complete_cb := none, read_failed_cb := none },
         [.callbackAddr cb ((addr : Int) - (s.read_base_address : Int))], none)
      | none =>
        ({ s with read_complete_cb := none, read_failed_cb := none },
         [.logError ("Deck memory read failed, addr: " ++ toString addr)], none)
  else (s, [], none)

/-- `DeckMemoryManager._write_done`: transport write completion. Faithful to
the source: the relative address is computed with `_read_base_address`, and a
`None` completion callback is called, raising `TypeError`. -/
def DeckMemoryManager.write_done (s : DeckMemoryManager) (memId addr : Nat) : StepResult :=
  if memId = s.id then
    match s.write_complete_cb with
    | none =>
      ({ s with write_complete_cb := none, write_failed_cb := none },
       [.logDebug "Write data done"], some .typeError)
    | some cb =>
      ({ s with write_complete_cb := none, write_failed_cb := none },
       [.logDebug "Write data done",
        .callbackAddr cb ((addr : Int) - (s.read_base_address : Int))], none)
  else (s, [], none)

/-- `DeckMemoryManager._write_failed`: transport write failure. Faithful to the
source: uses `_read_base_address` and calls the stored failure callback without
a `None` check. -/
def DeckMemoryManager.write_failed (s : DeckMemoryManager) (memId addr : Nat) : StepResult :=
  if memId = s.id then
    match s.write_failed_cb with
    | none =>
      ({ s with write_complete_cb := none, write_failed_cb := none },
       [.logDebug "Write failed"], some .typeError)
    | some cb =>
      ({ s with write_complete_cb := none, write_failed_cb := none },
       [.logDebug "Write failed",
        .callbackAddr cb ((addr : Int) - (s.read_base_address : Int))], none)
  else (s, [], none)

/-- `DeckMemoryManager.disconnect`: clears the query, read and write callbacks
and empties `deck_memories`; nothing is invoked. -/
def DeckMemoryManager.disconnect (s : DeckMemoryManager) : StepResult :=
  ({ s with
     query_complete_cb := none,
     read_complete_cb := none, read_failed_cb := none,
     write_complete_cb := none, write_failed_cb := none,
     deck_memories := [] }, [], none)

/-- `DeckMemory.read`: capability gating, then forwarding to the manager's read
lane with this deck's base address. The `none` base-address branch mirrors the
`TypeError` Python raises when adding `None` to an address; it is unreachable
for decks produced by the decoder (they are all valid and carry a base). -/
def DeckMemory.read (d : DeckMemory) (s : DeckMemoryManager) (address length : Nat)
    (read_complete_cb read_failed_cb : Option Nat) : StepResult :=
  if !d.supports_read then
    (s, [], some (.exception "Deck does not support read operations"))
  else if !d.is_started then
    (s, [], some (.exception "Deck not ready"))
  else
    match d.base_address with
    | some b => s.readOp b address length read_complete_cb read_failed_cb
    | none => (s, [], some .typeError)

/-- `DeckMemory.write`: same gating, forwarding to the manager's write lane. -/
def DeckMemory.write (d : DeckMemory) (s : DeckMemoryManager) (address : Nat)
    (data : List Nat) (write_complete_cb write_failed_cb : Option Nat) : StepResult :=
  if !d.supports_write then
    (s, [], some (.exception "Deck does not support write operations"))
  else if !d.is_started then
    (s, [], some (.exception "Deck not ready"))
  else
    match d.base_address with
    | some b => s.writeOp b address data write_complete_cb write_failed_cb
    | none => (s, [], some .typeError)

/-- Inbound transport events a manager can receive. -/
inductive TEvent where
  | newData (memId addr : Nat) (data : List Nat)
  | newDataFailed (memId addr : Nat)
  | writeDone (memId addr : Nat)
  | writeFailed (memId addr : Nat)
deriving DecidableEq, Repr

/-- Dispatch of an inbound transport event to the manager's entry points. -/
def DeckMemoryManager.handleEvent (s : DeckMemoryManager) : TEvent → StepResult
  | .newData memId addr data => s.new_data memId addr data
  | .newDataFailed memId addr => s.new_data_failed memId addr
  | .writeDone memId addr => s.write_done memId addr
  | .writeFailed memId addr => s.write_failed memId addr

/-- ASCII bytes of a string (all names in the tests are ASCII). -/
def strBytes (s : String) : List Nat := s.toList.map Char.toNat

/-- A freshly initialised manager (all lanes idle, empty deck map). -/
def mgr0 : DeckMemoryManager := {}

/-- A manager with all three lanes in flight. -/
def mgrBusy : DeckMemoryManager :=
  { query_complete_cb := some 1, read_complete_cb := some 2, write_complete_cb := some 3 }

/-- A manager whose read lane recorded base address 0x1000 from an earlier read
dispatch (both lanes idle). -/
def mgrReadBase : DeckMemoryManager := { read_base_address := 0x1000 }

/-- 129-byte info section with version byte 0 (unsupported). -/
def badVersionBuf : List Nat := 0 :: List.replicate 128 0

/-- 129-byte info section with the supported version byte 1 and every slot's
flag byte 0 (all slots invalid): decodes to the empty mapping. -/
def okEmptyBuf : List Nat := 1 :: List.replicate 128 0

/-- 129-byte info section, version 1: slot 0 = flags 0b1111 (valid, started,
read, write), hash 0xAABBCCDD LE, length 1024 LE, base 0x2000 LE, name
"bcLighthouse4" NUL-padded to 19 bytes; slots 1..3 all zero. -/
def buf7 : List Nat :=
  [1] ++
  ([15, 221, 204, 187, 170, 0, 4, 0, 0, 0, 32, 0, 0] ++
    strBytes "bcLighthouse4" ++ List.replicate 6 0) ++
  List.replicate 96 0

/-- Descriptor produced by decoding slot 0 of `buf7`. -/
def deck7 : DeckMemory :=
  { required_hash := some 0xAABBCCDD, required_length := some 1024,
    name := some (strBytes "bcLighthouse4"), base_address := some 0x2000,
    bit_field := 15 }

/-- 129-byte info section, version 1: slot 2 has flag byte 0b1110 (started,
read, write — valid bit clear); all other bytes zero. -/
def buf6 : List Nat := [1] ++ List.replicate 64 0 ++ [14] ++ List.replicate 63 0

/-- Deck descriptor whose bit field is 0b1010: started and supports-write set,
supports-read and valid clear. -/
def deckWriteOnly : DeckMemory := { bit_field := 10 }

/-- Deck descriptor whose bit field is 0b0101: valid and supports-read set,
started clear. -/
def deckNotStarted : DeckMemory := { bit_field := 5 }

/-! ## Helper lemmas -/

/-- The first byte of a 32-byte slot slice is the byte of the full buffer at
the slice's start offset. -/
theorem getD_zero_take_drop (l : List Nat) (n m : Nat) (hm : 0 < m) :
    ((l.drop n).take m).getD 0 0 = l.getD n 0 := by
  rw [List.getD_eq_getElem?_getD, List.getD_eq_getElem?_getD,
      List.getElem?_take_of_lt hm, List.getElem?_drop, Nat.add_zero]

/-- Parsing a slot whose first byte has the valid bit clear yields an invalid
descriptor. -/
theorem parseSlot_invalid (slice : List Nat)
    (h : slice.getD 0 0 &&& MASK_IS_VALID = 0) :
    (DeckMemory.parseSlot slice).is_valid = false := by
  have hcond : (({ bit_field := slice.getD 0 0 } : DeckMemory)).is_valid = false := by
    show (slice.getD 0 0 &&& MASK_IS_VALID != 0) = false
    rw [h]
    rfl
  unfold DeckMemory.parseSlot
  simp only [hcond, Bool.false_eq_true, if_false]

/-- A slot whose valid bit is clear contributes no entry to the slot loop. -/
theorem parseSlotEntry_eq_none_of_invalid (data : List Nat) (i : Nat)
    (h : data.getD (slotOffset i) 0 &&& MASK_IS_VALID = 0) :
    parseSlotEntry data i = none := by
  have hb : ((data.drop (slotOffset i)).take SIZE_OF_DECK_MEM_INFO).getD 0 0 =
      data.getD (slotOffset i) 0 :=
    getD_zero_take_drop _ _ _ (by decide)
  have hv : (DeckMemory.parseSlot
      ((data.drop (slotOffset i)).take SIZE_OF_DECK_MEM_INFO)).is_valid = false :=
    parseSlot_invalid _ (by rw [hb]; exact h)
  simp only [parseSlotEntry, hv, Bool.false_eq_true, if_false]

/-- Every entry emitted by the slot loop for slot `j` carries key `j`. -/
theorem parseSlotEntry_key (data : List Nat) (j : Nat) (p : Nat × DeckMemory)
    (hp : parseSlotEntry data j = some p) : p.1 = j := by
  simp only [parseSlotEntry] at hp
  split at hp
  · simp only [Option.some.injEq] at hp
    rw [← hp]
  · exact absurd hp (by simp)

/-! ## Claim theorems -/

/-- C1: the claim says an unsupported version byte yields an empty mapping plus
a logged decode error and never raises. The code instead evaluates
`'Version ' + version` with `version` an `int`, which raises `TypeError` for
every buffer whose version byte differs from `SUPPORTED_VERSION`; nothing is
returned or logged. This theorem evaluates the decoder on that failing path. -/
theorem version_mismatch_raises (data : List Nat)
    (h : data.getD 0 0 ≠ SUPPORTED_VERSION) :
    parseInfoSection data = .error .typeError := by
  unfold parseInfoSection
  rw [if_neg h]

/-- Witness: a concrete 129-byte buffer with version byte 0 makes the decoder
raise `TypeError`. -/
theorem version_mismatch_raises_witness :
    badVersionBuf.length = SIZE_OF_INFO_SECTION ∧
    parseInfoSection badVersionBuf = .error .typeError :=
  ⟨by simp [badVersionBuf, SIZE_OF_INFO_SECTION, SIZE_OF_VERSION, MAX_NR_OF_DECKS,
      SIZE_OF_DECK_MEM_INFO],
   version_mismatch_raises badVersionBuf (by decide)⟩

/-- C2: the claim says a write completion (or failure) at absolute address A
invokes the callback with A minus the base address recorded in the *write*
lane, regardless of the read lane's base. The code subtracts
`_read_base_address` instead: with read-lane base 0x1000 and a write dispatched
at write-lane base 0x2000, relative 0x10 (absolute 0x2010), both `_write_done`
and `_write_failed` hand the callback 0x1010 rather than 0x10. -/
theorem write_done_subtracts_read_lane_base :
    (mgrReadBase.writeOp 0x2000 0x10 [1, 2, 3] (some 7) (some 8)).2 =
      ([.memWrite 0x2010 [1, 2, 3] true], none) ∧
    ((mgrReadBase.writeOp 0x2000 0x10 [1, 2, 3] (some 7) (some 8)).1.write_done 0 0x2010).2 =
      ([.logDebug "Write data done", .callbackAddr 7 0x1010], none) ∧
    ((mgrReadBase.writeOp 0x2000 0x10 [1, 2, 3] (some 7) (some 8)).1.write_failed 0 0x2010).2 =
      ([.logDebug "Write failed", .callbackAddr 8 0x1010], none) :=
  ⟨rfl, rfl, rfl⟩

/-- C3: the claim says a write failure with no `on_failure` callback is logged
and the failure-delivery path does not raise. The code stores `None`, and
`_write_failed` calls it without a `None` check: the delivery path raises
`TypeError` (only the unconditional debug line is logged, no error report). -/
theorem write_failed_without_callback_raises :
    (mgr0.writeOp 0x2000 0x10 [9] (some 5) none).2 = ([.memWrite 0x2010 [9] true], none) ∧
    ((mgr0.writeOp 0x2000 0x10 [9] (some 5) none).1.write_failed 0 0x2010 =
      ({ mgr0 with write_base_address := 0x2000 }, [.logDebug "Write failed"], some .typeError)) :=
  ⟨rfl, rfl⟩

/-- C4 (amended): for every read dispatched on an idle read lane with base B
and relative R, the manager issues a transport read at absolute address B + R,
and — provided B + R differs from the info-section address 0 — a delivery at
that absolute address invokes the completion callback with relative address
exactly R and the data, even if `deck_memories` was replaced with an arbitrary
map `m` while the read was in flight. (At B + R = 0 the delivery is routed to
the query lane instead; see the counterexample.) -/
theorem read_roundtrip_relative (s : DeckMemoryManager) (B R len : Nat)
    (cb : Nat) (fcb : Option Nat) (m : List (Nat × DeckMemory)) (data : List Nat)
    (hidle : s.read_complete_cb = none) (haddr : B + R ≠ INFO_SECTION_ADDRESS) :
    s.readOp B R len (some cb) fcb =
      ({ s with read_base_address := B, read_complete_cb := some cb, read_failed_cb := fcb },
       [.memRead (B + R) len], none) ∧
    ({ (s.readOp B R len (some cb) fcb).1 with deck_memories := m }.new_data s.id (B + R) data =
      ({ s with read_base_address := B, read_complete_cb := none, read_failed_cb := none,
                deck_memories := m },
       [.callbackData cb (R : Int) data], none)) := by
  have hcomm : R + B = B + R := Nat.add_comm R B
  constructor
  · simp [DeckMemoryManager.readOp, hidle, hcomm]
  · have haddr' : ¬(B + R = 0) := haddr
    simp only [DeckMemoryManager.readOp, hidle, Option.isSome_none, Bool.false_eq_true,
      if_false, DeckMemoryManager.new_data, INFO_SECTION_ADDRESS]
    rw [if_pos trivial, if_neg haddr']
    have harith : ((B + R : Nat) : Int) - (B : Int) = (R : Int) := by push_cast; ring
    rw [harith]

/-- Witness for C4's amended theorem at B = 0x1000, R = 0x10, length 4. -/
theorem read_roundtrip_relative_witness :
    mgr0.readOp 0x1000 0x10 4 (some 6) none =
      ({ mgr0 with read_base_address := 0x1000, read_complete_cb := some 6,
                   read_failed_cb := none },
       [.memRead 0x1010 4], none) ∧
    ({ (mgr0.readOp 0x1000 0x10 4 (some 6) none).1 with deck_memories := [] }.new_data
        mgr0.id 0x1010 [9, 9, 9, 9] =
      ({ mgr0 with read_base_address := 0x1000, read_complete_cb := none,
                   read_failed_cb := none, deck_memories := [] },
       [.callbackData 6 (0x10 : Int) [9, 9, 9, 9]], none)) :=
  read_roundtrip_relative mgr0 0x1000 0x10 4 6 none [] [9, 9, 9, 9] rfl (by decide)

/-- C4 counterexample: the claim as stated quantifies over every base B and
relative R, but at B = 0, R = 0 the absolute address B + R equals the
info-section address 0, so `_new_data` routes the delivery to the query lane.
With a full 129-byte version-1 payload the info section parses to the empty
mapping (exactly as the Python code computes it), `deck_memories` is replaced,
and then the stored `None` query callback is called, raising `TypeError`: no
effect is emitted, so the read completion callback (token 3) never receives
the promised relative address 0 and data. -/
theorem read_at_absolute_zero_misroutes :
    (mgr0.readOp 0 0 129 (some 3) none).2 = ([.memRead 0 129], none) ∧
    ((mgr0.readOp 0 0 129 (some 3) none).1.new_data 0 0 okEmptyBuf =
      ({ mgr0 with read_complete_cb := some 3 }, [], some .typeError)) :=
  ⟨rfl, rfl⟩

/-- C5: a request to a lane whose stored completion callback is not yet
resolved fails synchronously with the lane's "ongoing" exception; the state is
returned unchanged (so the first request's recorded base address and callbacks
— and hence its eventual completion — are unaffected) and nothing is queued or
emitted. -/
theorem busy_lane_rejected_synchronously (s : DeckMemoryManager)
    (qcb : Option Nat) (b a l : Nat) (c f : Option Nat)
    (b2 a2 : Nat) (d : List Nat) (c2 f2 : Option Nat) :
    (s.query_complete_cb.isSome = true →
      s.query_decks qcb = (s, [], some (.exception "Query ongoing"))) ∧
    (s.read_complete_cb.isSome = true →
      s.readOp b a l c f = (s, [], some (.exception "Read operation ongoing"))) ∧
    (s.write_complete_cb.isSome = true →
      s.writeOp b2 a2 d c2 f2 = (s, [], some (.exception "Write operation ongoing"))) := by
  refine ⟨fun h => ?_, fun h => ?_, fun h => ?_⟩ <;>
    simp [DeckMemoryManager.query_decks, DeckMemoryManager.readOp,
      DeckMemoryManager.writeOp, h]

/-- Witness for C5 on a manager with all three lanes in flight. -/
theorem busy_lane_rejected_synchronously_witness :
    mgrBusy.query_decks (some 9) = (mgrBusy, [], some (.exception "Query ongoing")) ∧
    mgrBusy.readOp 16 1 4 (some 9) none =
      (mgrBusy, [], some (.exception "Read operation ongoing")) ∧
    mgrBusy.writeOp 16 1 [5] (some 9) none =
      (mgrBusy, [], some (.exception "Write operation ongoing")) :=
  ⟨(busy_lane_rejected_synchronously mgrBusy (some 9) 16 1 4 (some 9) none
      16 1 [5] (some 9) none).1 rfl,
   (busy_lane_rejected_synchronously mgrBusy (some 9) 16 1 4 (some 9) none
      16 1 [5] (some 9) none).2.1 rfl,
   (busy_lane_rejected_synchronously mgrBusy (some 9) 16 1 4 (some 9) none
      16 1 [5] (some 9) none).2.2 rfl⟩

/-- C6: for every info-section buffer with the supported version byte and every
slot index i < MAX_NR_OF_DECKS whose slot capability byte has the valid bit
clear, the decoded mapping has no entry for key i, whatever the remaining slot
bytes hold. -/
theorem invalid_slot_produces_no_entry (data : List Nat) (i : Nat)
    (_hlen : data.length = SIZE_OF_INFO_SECTION)
    (hver : data.getD 0 0 = SUPPORTED_VERSION)
    (_hi : i < MAX_NR_OF_DECKS)
    (hflag : data.getD (slotOffset i) 0 &&& MASK_IS_VALID = 0) :
    parseInfoSection data = .ok (parseSlots data) ∧
    (parseSlots data).lookup i = none := by
  refine ⟨by unfold parseInfoSection; rw [if_pos hver], ?_⟩
  rw [List.lookup_eq_none_iff]
  rintro ⟨k, d⟩ hp
  rw [parseSlots, List.mem_filterMap] at hp
  obtain ⟨j, _, hj⟩ := hp
  have hk : k = j := parseSlotEntry_key data j (k, d) hj
  have hne : i ≠ k := by
    intro h
    rw [← h] at hk
    rw [← hk] at hj
    rw [parseSlotEntry_eq_none_of_invalid data i hflag] at hj
    exact Option.noConfusion hj
  simpa using hne

/-- Witness for C6: a buffer whose slot 2 has flag byte 0b1110 (valid clear,
other bits set) decodes with no entry for index 2. -/
theorem invalid_slot_produces_no_entry_witness :
    parseInfoSection buf6 = .ok (parseSlots buf6) ∧ (parseSlots buf6).lookup 2 = none :=
  invalid_slot_produces_no_entry buf6 2
    (by simp [buf6, SIZE_OF_INFO_SECTION, SIZE_OF_VERSION, MAX_NR_OF_DECKS,
        SIZE_OF_DECK_MEM_INFO])
    (by decide) (by decide) (by decide)

/-- C7: decoding the concrete 129-byte info section of the scenario yields
exactly the mapping {0 ↦ deck7}: base address 0x2000, required hash
0xAABBCCDD, required length 1024, name "bcLighthouse4" (bytes up to the first
NUL), and the valid/started/supports-read/supports-write flags all set. -/
theorem scenario_decode_lighthouse :
    parseInfoSection buf7 = .ok [(0, deck7)] ∧
    deck7.base_address = some 0x2000 ∧
    deck7.required_hash = some 0xAABBCCDD ∧
    deck7.required_length = some 1024 ∧
    deck7.name = some (strBytes "bcLighthouse4") ∧
    deck7.supports_read = true ∧
    deck7.supports_write = true ∧
    deck7.is_valid = true ∧
    deck7.is_started = true :=
  ⟨rfl, rfl, rfl, rfl, rfl, rfl, rfl, rfl, rfl⟩

/-- C8: `disconnect` itself emits no effects and raises nothing; afterwards the
deck map is empty and all three lanes are idle (every stored callback cleared);
and whatever transport event arrives next, handling it invokes no callback —
in particular no callback that was pending at the disconnect is ever run. -/
theorem disconnect_idles_lanes_and_silences (s : DeckMemoryManager) (e : TEvent) :
    s.disconnect.2 = ([], none) ∧
    s.disconnect.1.query_complete_cb = none ∧
    s.disconnect.1.read_complete_cb = none ∧
    s.disconnect.1.read_failed_cb = none ∧
    s.disconnect.1.write_complete_cb = none ∧
    s.disconnect.1.write_failed_cb = none ∧
    s.disconnect.1.deck_memories = [] ∧
    (s.disconnect.1.handleEvent e).2.1.filter Effect.isCallbackInvocation = [] := by
  refine ⟨rfl, rfl, rfl, rfl, rfl, rfl, rfl, ?_⟩
  cases e
  all_goals
    simp only [DeckMemoryManager.handleEvent, DeckMemoryManager.new_data,
      DeckMemoryManager.new_data_failed, DeckMemoryManager.write_done,
      DeckMemoryManager.write_failed, DeckMemoryManager.disconnect]
  all_goals repeat' split
  all_goals rfl

/-- C9: a handle whose supports-read flag is clear rejects `read` synchronously
with the capability exception (even when supports-write and started are set);
a handle with supports-read set but started clear rejects with the not-ready
exception; in both cases the manager state is returned untouched and no
transport call or lane mutation happens. -/
theorem handle_read_capability_gating (d : DeckMemory) (s : DeckMemoryManager)
    (address length : Nat) (ccb fcb : Option Nat) :
    (d.supports_read = false →
      d.read s address length ccb fcb =
        (s, [], some (.exception "Deck does not support read operations"))) ∧
    (d.supports_read = true → d.is_started = false →
      d.read s address length ccb fcb = (s, [], some (.exception "Deck not ready"))) := by
  constructor
  · intro h; simp [DeckMemory.read, h]
  · intro h1 h2; simp [DeckMemory.read, h1, h2]

/-- Witness for C9: a write-capable started deck without read capability, and a
readable deck that is not started. -/
theorem handle_read_capability_gating_witness :
    deckWriteOnly.supports_write = true ∧ deckWriteOnly.is_started = true ∧
    deckWriteOnly.read mgr0 0 4 (some 1) none =
      (mgr0, [], some (.exception "Deck does not support read operations")) ∧
    deckNotStarted.supports_read = true ∧
    deckNotStarted.read mgr0 0 4 (some 1) none =
      (mgr0, [], some (.exception "Deck not ready")) :=
  ⟨rfl, rfl,
   (handle_read_capability_gating deckWriteOnly mgr0 0 4 (some 1) none).1 rfl,
   rfl,
   (handle_read_capability_gating deckNotStarted mgr0 0 4 (some 1) none).2 rfl rfl⟩

/-- C10 (implicit): lane occupancy is tested via the stored completion callback
alone, so a read or write accepted with completion callback `None` leaves its
lane still testing idle; a second request on that lane is then accepted (no
"ongoing" exception) and overwrites the recorded base address and failure
callback of the first. -/
theorem none_completion_callback_lane_hole (s : DeckMemoryManager)
    (b1 a1 l1 : Nat) (f1 : Option Nat) (b2 a2 l2 : Nat) (c2 f2 : Option Nat)
    (wb1 wa1 : Nat) (wd1 : List Nat) (wf1 : Option Nat)
    (wb2 wa2 : Nat) (wd2 : List Nat) (wc2 wf2 : Option Nat)
    (hr : s.read_complete_cb = none) (hw : s.write_complete_cb = none) :
    (s.readOp b1 a1 l1 none f1 =
      ({ s with read_base_address := b1, read_complete_cb := none, read_failed_cb := f1 },
       [.memRead (a1 + b1) l1], none)) ∧
    ((s.readOp b1 a1 l1 none f1).1.read_complete_cb = none) ∧
    ((s.readOp b1 a1 l1 none f1).1.readOp b2 a2 l2 c2 f2 =
      ({ s with read_base_address := b2, read_complete_cb := c2, read_failed_cb := f2 },
       [.memRead (a2 + b2) l2], none)) ∧
    (s.writeOp wb1 wa1 wd1 none wf1 =
      ({ s with write_base_address := wb1, write_complete_cb := none, write_failed_cb := wf1 },
       [.memWrite (wa1 + wb1) wd1 true], none)) ∧
    ((s.writeOp wb1 wa1 wd1 none wf1).1.write_complete_cb = none) ∧
    ((s.writeOp wb1 wa1 wd1 none wf1).1.writeOp wb2 wa2 wd2 wc2 wf2 =
      ({ s with write_base_address := wb2, write_complete_cb := wc2, write_failed_cb := wf2 },
       [.memWrite (wa2 + wb2) wd2 true], none)) := by
  simp [DeckMemoryManager.readOp, DeckMemoryManager.writeOp, hr, hw]

/-- Witness for C10: on a fresh manager, a read and a write dispatched with
`None` completion callbacks leave their lanes testing idle, and second
requests are accepted, overwriting base and failure callback. -/
theorem none_completion_callback_lane_hole_witness :
    ((mgr0.readOp 4096 16 4 none (some 1)).1.read_complete_cb = none) ∧
    ((mgr0.readOp 4096 16 4 none (some 1)).1.readOp 8192 32 8 (some 2) (some 3) =
      ({ mgr0 with read_base_address := 8192, read_complete_cb := some 2,
                   read_failed_cb := some 3 },
       [.memRead 8224 8], none)) ∧
    ((mgr0.writeOp 4096 16 [7] none (some 1)).1.write_complete_cb = none) ∧
    ((mgr0.writeOp 4096 16 [7] none (some 1)).1.writeOp 8192 32 [8] (some 2) (some 3) =
      ({ mgr0 with write_base_address := 8192, write_complete_cb := some 2,
                   write_failed_cb := some 3 },
       [.memWrite 8224 [8] true], none)) := by
  have h := none_completion_callback_lane_hole mgr0 4096 16 4 (some 1) 8192 32 8
    (some 2) (some 3) 4096 16 [7] (some 1) 8192 32 [8] (some 2) (some 3) rfl rfl
  exact ⟨h.2.1, h.2.2.1, h.2.2.2.2.1, h.2.2.2.2.2⟩

end CfDeckMemory
